import Mathlib

/-!
Shallow embedding of the Voicebot-STS bridge (src/sts_agent.py, src/config.py).

The repository is a single-tenant WebSocket bridge between one browser client
and the OpenAI/Azure realtime API.  The embedding below translates the parts
of the code the claims are about:

* the configuration constants of config.py;
* update_vad_threshold and configure_session (session configurator);
* receive_from_openai per-event dispatch (event translator, upstream to client);
* the per-message body of handle_browser_websocket (command translator,
  client to upstream), including its JSONDecodeError / generic exception
  handlers and the error-throttle state;
* the supersession prologue of handle_browser_websocket (lines 267-288);
* connect_to_openai as a function of the credential configuration and of the
  outcomes of the two underlying handshake attempts;
* save_recording over the audio_recordings dictionary.

External effects are made explicit: outbound upstream commands and outbound
browser messages are returned as lists, prints that report problems are
returned as Diag values, time.time() is a parameter, the external base64
decoder is a function parameter, and a send over the upstream channel either
succeeds or raises, driven by an oracle in the call context.  Python floats
are modelled as rationals; Python str.lower as an ASCII character map, which
agrees with it on the strings involved.
-/

namespace STS

/-- Bytes of decoded audio, one natural number per byte. -/
abbrev Bytes := List Nat

/-! ### Python string and number helpers -/

/-- Python str.lower, per character (ASCII). -/
def pyLower (s : String) : String := ⟨s.data.map Char.toLower⟩

/-- Does the haystack start with the needle? -/
def listStartsWith : List Char → List Char → Bool
  | [], _ => true
  | _ :: _, [] => false
  | a :: n2, b :: h2 => a == b && listStartsWith n2 h2

/-- Does the needle occur as a contiguous run of the haystack? -/
def listContains (n : List Char) : List Char → Bool
  | [] => listStartsWith n []
  | b :: h2 => listStartsWith n (b :: h2) || listContains n h2

/-- Python substring containment: needle in hay. -/
def pyIn (needle hay : String) : Bool := listContains needle.data hay.data

/-- Python min of two numbers: the first argument on ties. -/
def pyMin (a b : ℚ) : ℚ := if a ≤ b then a else b

/-- Python max of two numbers: the first argument on ties. -/
def pyMax (a b : ℚ) : ℚ := if b ≤ a then a else b

/-- Python truthiness of an optional string: None and the empty string are
falsy, every other string is truthy. -/
def pyTruthyOpt (o : Option String) : Bool :=
  match o with
  | none => false
  | some s => s != ""

/-! ### config.py constants -/

def TURN_DETECTION_TYPE : String := "server_vad"

def TURN_DETECTION_THRESHOLD : ℚ := mkRat 7 10

def TURN_DETECTION_PREFIX_PADDING_MS : Nat := 200

def TURN_DETECTION_SILENCE_DURATION_MS : Nat := 700

def SAMPLE_RATE : Nat := 24000

def AUDIO_FORMAT : String := "pcm16"

def VOICE : String := "alloy"

def SYSTEM_PROMPT : String :=
  "You are a helpful voice assistant. Keep your responses concise and natural \nfor voice conversation, ideally 1-3 sentences unless more detail is specifically requested. \nSpeak in a friendly, conversational tone."

/-! ### Messages and commands -/

/-- The turn_detection object sent inside a session.update command. -/
structure TurnDetectionConfig where
  td_type : String
  threshold : ℚ
  prefix_padding_ms : Nat
  silence_duration_ms : Nat
deriving DecidableEq, Repr

/-- The session object of the initial session.update of configure_session. -/
structure SessionSettings where
  modalities : List String
  instructions : String
  voice : String
  input_audio_format : String
  output_audio_format : String
  transcription_model : String
  transcription_language : String
  turn_detection : TurnDetectionConfig
deriving DecidableEq, Repr

/-- Commands sent over the upstream (OpenAI) channel. -/
inductive UpstreamCmd where
  | session_update_full (s : SessionSettings)
  | session_update (td : TurnDetectionConfig)
  | conversation_item_create (role : String) (text : String)
  | response_create (modalities : Option (List String))
  | response_cancel
  | input_audio_buffer_append (audio : String)
deriving DecidableEq, Repr

/-- Messages sent to the browser client. -/
inductive BrowserMsg where
  | error_msg (message : String)
  | speech_started
  | speech_stopped
  | transcript (text : String)
  | thinking (status : String)
  | response_transcript_delta (delta : String)
  | response_text (text : String)
  | audio_chunk (audio : String)
  | audio_complete
  | response_done
deriving DecidableEq, Repr

/-! ### Session configurator (configure_session, update_vad_threshold) -/

/-- The turn_detection object configure_session composes from config.py. -/
def configured_turn_detection : TurnDetectionConfig :=
  { td_type := TURN_DETECTION_TYPE
    threshold := TURN_DETECTION_THRESHOLD
    prefix_padding_ms := TURN_DETECTION_PREFIX_PADDING_MS
    silence_duration_ms := TURN_DETECTION_SILENCE_DURATION_MS }

/-- configure_session: returns False and sends nothing when the upstream
channel is absent; otherwise sends the full session.update and returns True. -/
def configure_session (openai_ws : Option Unit) : Bool × List UpstreamCmd :=
  match openai_ws with
  | none => (false, [])
  | some _ =>
    (true,
     [UpstreamCmd.session_update_full
       { modalities := ["text", "audio"]
         instructions := SYSTEM_PROMPT
         voice := VOICE
         input_audio_format := AUDIO_FORMAT
         output_audio_format := AUDIO_FORMAT
         transcription_model := "whisper-1"
         transcription_language := "en"
         turn_detection := configured_turn_detection }])

/-- update_vad_threshold: returns without sending when the upstream channel is
absent; otherwise clamps the threshold to the unit interval and sends one
partial session.update whose turn_detection has the literal type server_vad
and the padding and silence durations taken from config.py. -/
def update_vad_threshold (openai_ws : Option Unit) (threshold : ℚ) :
    List UpstreamCmd :=
  match openai_ws with
  | none => []
  | some _ =>
    let t := pyMax 0 (pyMin 1 threshold)
    [UpstreamCmd.session_update
      { td_type := "server_vad"
        threshold := t
        prefix_padding_ms := TURN_DETECTION_PREFIX_PADDING_MS
        silence_duration_ms := TURN_DETECTION_SILENCE_DURATION_MS }]

/-! ### Event translator (receive_from_openai, one parsed event) -/

/-- A parsed upstream event, after json.loads and field extraction.  Each
constructor carries exactly the fields the dispatch reads: transcripts and
deltas come from event.get with default empty string, the response id from
event.get of response then of id (absent when either is missing), the error
message from the error object (absent when the provider sent none). -/
inductive OpenAIEvent where
  | session_created
  | session_updated
  | speech_started
  | speech_stopped
  | buffer_committed
  | transcription_completed (transcript : String)
  | response_created (response_id : Option String)
  | output_item_added
  | content_part_added
  | audio_transcript_delta (delta : String)
  | audio_transcript_done (transcript : String)
  | audio_delta (delta : String)
  | audio_done
  | response_done
  | error_event (message : Option String)
  | rate_limits_updated
  | unknown (event_type : String)
deriving DecidableEq, Repr

/-- The response-lifecycle state carried by the agent. -/
structure ResponseState where
  current_response_id : Option String
  is_responding : Bool
deriving DecidableEq, Repr

/-- One iteration of the receive_from_openai dispatch: consumes one parsed
upstream event, returns the new response state and the browser messages sent
(in order). -/
def process_openai_event (st : ResponseState) (ev : OpenAIEvent) :
    ResponseState × List BrowserMsg :=
  match ev with
  | .session_created => (st, [])
  | .session_updated => (st, [])
  | .speech_started => (st, [BrowserMsg.speech_started])
  | .speech_stopped => (st, [BrowserMsg.speech_stopped])
  | .buffer_committed => (st, [])
  | .transcription_completed transcript =>
    if transcript != "" then (st, [BrowserMsg.transcript transcript])
    else (st, [])
  | .response_created rid =>
    ({ current_response_id := rid, is_responding := true },
     [BrowserMsg.thinking "start"])
  | .output_item_added => (st, [])
  | .content_part_added => (st, [])
  | .audio_transcript_delta delta =>
    if delta != "" then (st, [BrowserMsg.response_transcript_delta delta])
    else (st, [])
  | .audio_transcript_done transcript =>
    if transcript != "" then (st, [BrowserMsg.response_text transcript])
    else (st, [])
  | .audio_delta delta =>
    if delta != "" then (st, [BrowserMsg.audio_chunk delta])
    else (st, [])
  | .audio_done => (st, [BrowserMsg.audio_complete])
  | .response_done =>
    ({ current_response_id := none, is_responding := false },
     [BrowserMsg.response_done])
  | .error_event message =>
    let error_msg := message.getD "Unknown error"
    if pyIn "no active response" (pyLower error_msg) then (st, [])
    else (st, [BrowserMsg.error_msg error_msg])
  | .rate_limits_updated => (st, [])
  | .unknown _ => (st, [])

/-! ### Command translator (handle_browser_websocket, one client message) -/

/-- A Python exception value, by class and message. -/
inductive PyExn where
  | valueError (message : String)
  | typeError (message : String)
  | timeoutError
  | otherExn (name : String) (message : String)
deriving DecidableEq, Repr

def pyExnName (e : PyExn) : String :=
  match e with
  | .valueError _ => "ValueError"
  | .typeError _ => "TypeError"
  | .timeoutError => "TimeoutError"
  | .otherExn n _ => n

def pyExnStr (e : PyExn) : String :=
  match e with
  | .valueError m => m
  | .typeError m => m
  | .timeoutError => ""
  | .otherExn _ m => m

/-- Problem reports printed by the browser-message loop.  Informational
prints are not modelled; these are the warning diagnostics. -/
inductive Diag where
  | invalid_json
  | audio_send_error (name : String)
  | no_openai_connection
  | processing_error (name : String) (message : String)
deriving DecidableEq, Repr

/-- A parsed client message: the result of json.loads plus the data.get
accesses the dispatch performs.  A field is none when absent from the JSON
object. -/
structure ClientData where
  msg_type : Option String
  audio : Option String
  text : Option String
  threshold : Option ℚ
deriving DecidableEq, Repr

/-- The mutable state the browser-message loop reads and writes. -/
structure BridgeState where
  openai_ws : Option Unit
  audio_recordings : List (Nat × List Bytes)
  resp : ResponseState
  last_error_time : ℚ
  error_count : Nat
deriving DecidableEq, Repr

/-- Per-call context: configuration, the identity of the browser websocket,
the wall clock, the external base64 decoder, and whether a send over the
upstream channel succeeds or raises (with which exception text). -/
structure ClientCtx where
  enable_recordings : Bool
  ws_id : Nat
  now : ℚ
  b64decode : String → Bytes
  send_ok : Bool
  send_error_name : String
  send_error_message : String

/-- The throttled print of the error paths (lines 347-351 and 358-363):
emit the diagnostic and reset the throttle only when more than one second
has passed since the last emitted error. -/
def throttle (st : BridgeState) (now : ℚ) (d : Diag) :
    BridgeState × List Diag :=
  if now - st.last_error_time > 1 then
    ({ st with last_error_time := now, error_count := 0 }, [d])
  else (st, [])

/-- Dictionary update for audio_recordings: insert an empty list for an
absent key, then append the frame (lines 331-335). -/
def dictAppend (recs : List (Nat × List Bytes)) (k : Nat) (frame : Bytes) :
    List (Nat × List Bytes) :=
  match recs.lookup k with
  | none => recs ++ [(k, [frame])]
  | some _ => recs.map (fun p => if p.1 = k then (p.1, p.2 ++ [frame]) else p)

/-- The body of one if/elif branch dispatch of handle_browser_websocket
(lines 314-383), on an already parsed client message.  Returns the new
state, the upstream commands sent, and the diagnostics printed; an
uncaught exception is an error value.  A send over the upstream channel
raises when the context says so; the audio branch catches that exception
locally (lines 344-355), the other branches let it escape to the generic
handler of processClientMessage. -/
def dispatch (ctx : ClientCtx) (st : BridgeState) (data : ClientData) :
    Except PyExn (BridgeState × List UpstreamCmd × List Diag) :=
  let t := data.msg_type
  let sendExn : PyExn := .otherExn ctx.send_error_name ctx.send_error_message
  if t = some "session_start" then
    match st.openai_ws with
    | none => .ok (st, [], [])
    | some _ =>
      if ctx.send_ok then
        .ok (st,
          [UpstreamCmd.conversation_item_create "assistant"
            "Hello! I'm your STS voice assistant. Just start speaking and I'll respond.",
           UpstreamCmd.response_create (some ["text", "audio"])], [])
      else .error sendExn
  else if t = some "input_audio_buffer.append" then
    let audio_base64 := data.audio.getD ""
    let st1 :=
      if ctx.enable_recordings then
        { st with audio_recordings :=
            dictAppend st.audio_recordings ctx.ws_id (ctx.b64decode audio_base64) }
      else st
    match st.openai_ws with
    | some _ =>
      if ctx.send_ok then
        .ok (st1, [UpstreamCmd.input_audio_buffer_append audio_base64], [])
      else
        let (st2, ds) := throttle st1 ctx.now (Diag.audio_send_error ctx.send_error_name)
        let st3 := { st2 with error_count := st2.error_count + 1 }
        let st4 :=
          if pyIn "closed" (pyLower ctx.send_error_message) ||
             pyIn "connection" (pyLower ctx.send_error_message) then
            { st3 with openai_ws := none }
          else st3
        .ok (st4, [], ds)
    | none =>
      let (st2, ds) := throttle st1 ctx.now Diag.no_openai_connection
      .ok ({ st2 with error_count := st2.error_count + 1 }, [], ds)
  else if t = some "interrupt" then
    if st.resp.is_responding && pyTruthyOpt st.resp.current_response_id &&
       st.openai_ws.isSome then
      if ctx.send_ok then .ok (st, [UpstreamCmd.response_cancel], [])
      else .error sendExn
    else .ok (st, [], [])
  else if t = some "text_message" then
    let text := (data.text.getD "").trim
    if text != "" then
      match st.openai_ws with
      | none => .ok (st, [], [])
      | some _ =>
        if ctx.send_ok then
          .ok (st,
            [UpstreamCmd.conversation_item_create "user" text,
             UpstreamCmd.response_create none], [])
        else .error sendExn
    else .ok (st, [], [])
  else if t = some "update_sensitivity" then
    let threshold := data.threshold.getD (mkRat 7 10)
    if st.openai_ws.isSome && !ctx.send_ok then .error sendExn
    else .ok (st, update_vad_threshold st.openai_ws threshold, [])
  else .ok (st, [], [])

/-- One full iteration of the browser-message loop (lines 302-397): a raw
message is either well formed JSON (some parsed data) or not (none).  A
parse failure prints an unthrottled diagnostic (line 386); any exception
from the dispatch is caught by the generic handler with a throttled
diagnostic (lines 387-397).  The function is total: no exception escapes an
iteration, so the loop always proceeds to the next message. -/
def processClientMessage (ctx : ClientCtx) (st : BridgeState)
    (raw : Option ClientData) : BridgeState × List UpstreamCmd × List Diag :=
  match raw with
  | none => (st, [], [Diag.invalid_json])
  | some data =>
    match dispatch ctx st data with
    | .ok r => r
    | .error e =>
      let (st2, ds) := throttle st ctx.now (Diag.processing_error (pyExnName e) (pyExnStr e))
      ({ st2 with error_count := st2.error_count + 1 }, [], ds)

/-- The browser-message loop over a finite prefix of the incoming stream:
processes every message, accumulating commands and diagnostics. -/
def runClientLoop (ctx : ClientCtx) (st : BridgeState)
    (msgs : List (Option ClientData)) :
    BridgeState × List UpstreamCmd × List Diag :=
  match msgs with
  | [] => (st, [], [])
  | m :: rest =>
    let r1 := processClientMessage ctx st m
    let r2 := runClientLoop ctx r1.1 rest
    (r2.1, r1.2.1 ++ r2.2.1, r1.2.2 ++ r2.2.2)

/-! ### Session supersession (handle_browser_websocket, lines 267-288) -/

/-- The connection-slot state of the bridge: the set of active browser
connections (as a list of connection identities) and the upstream channel. -/
structure ConnState where
  active_connections : List Nat
  openai_ws : Option Unit
deriving DecidableEq, Repr

/-- Channel-level actions of the supersession prologue, in program order. -/
inductive BridgeAction where
  | close_upstream
  | close_client (c : Nat)
  | begin_connect_upstream
deriving DecidableEq, Repr

/-- The close actions the prologue performs when a prior session exists:
close the old upstream channel if there is one, then close every old client
channel. -/
def closeActions (st : ConnState) : List BridgeAction :=
  (match st.openai_ws with
   | some _ => [BridgeAction.close_upstream]
   | none => []) ++
  st.active_connections.map BridgeAction.close_client

/-- Arrival of a new browser connection (lines 267-288): when the
active-connection set is non-empty, close the old upstream channel (if any)
and every old client channel and clear the set; then add the new connection
and begin connecting upstream for it. -/
def acceptClient (st : ConnState) (newClient : Nat) :
    ConnState × List BridgeAction :=
  if st.active_connections ≠ [] then
    ({ active_connections := [newClient], openai_ws := none },
     closeActions st ++ [BridgeAction.begin_connect_upstream])
  else
    ({ st with active_connections := st.active_connections ++ [newClient] },
     [BridgeAction.begin_connect_upstream])

/-! ### Upstream connector (connect_to_openai, lines 82-196) -/

/-- Credential configuration as read from config.py: the provider-mode flag
and the optional credential strings (none when the environment variable is
unset; Python also treats the empty string as unset). -/
structure ProviderConfig where
  use_azure : Bool
  azure_endpoint : Option String
  azure_api_key : Option String
  azure_deployment : Option String
  openai_api_key : Option String
deriving DecidableEq, Repr

/-- Outcome of one underlying websockets.connect call wrapped in
asyncio.wait_for: it yields a channel, times out, or raises. -/
inductive ConnectAttempt where
  | success
  | timeout
  | raises (e : PyExn)
deriving DecidableEq, Repr

/-- connect_to_openai as a function of the credential configuration and of
the outcomes of the primary handshake attempt (additional_headers call
shape) and of the fallback attempt (extra_headers call shape).  Returns
ok true on connection, ok false on a reported failure, and error when the
code raises past the function: the ValueError for incomplete Azure
credentials (lines 87-91, before the try block) and the re-raise of a
TypeError unrelated to the header parameter (line 180). -/
def connect_to_openai (cfg : ProviderConfig)
    (primary fallback : ConnectAttempt) : Except PyExn Bool :=
  if cfg.use_azure &&
     !(pyTruthyOpt cfg.azure_endpoint && pyTruthyOpt cfg.azure_api_key &&
       pyTruthyOpt cfg.azure_deployment) then
    .error (.valueError
      "Azure OpenAI requires AZURE_OPENAI_ENDPOINT, AZURE_OPENAI_API_KEY, and AZURE_OPENAI_DEPLOYMENT environment variables")
  else
    match primary with
    | .success => .ok true
    | .timeout => .ok false
    | .raises (.typeError m) =>
      if pyIn "additional_headers" m || pyIn "extra_headers" m then
        match fallback with
        | .success => .ok true
        | .timeout => .ok false
        | .raises _ => .ok false
      else .error (.typeError m)
    | .raises _ => .ok false

/-! ### Audio capture sink (save_recording, lines 615-650) -/

/-- One WAV file write, with the parameters the code sets. -/
structure FileWrite where
  timestamp : Nat
  nchannels : Nat
  sampwidth : Nat
  framerate : Nat
  contents : Bytes
deriving DecidableEq, Repr

/-- Dictionary deletion for audio_recordings. -/
def dictErase (recs : List (Nat × List Bytes)) (k : Nat) :
    List (Nat × List Bytes) :=
  recs.filter (fun p => p.1 != k)

/-- save_recording for one browser websocket: returns without writing when
the key is absent; deletes the entry and returns without writing when the
chunk list is empty or the concatenated audio is empty; otherwise writes one
mono 16-bit WAV file at the configured sample rate, named by the timestamp,
and deletes the entry. -/
def save_recording (recs : List (Nat × List Bytes)) (ws : Nat) (ts : Nat) :
    List (Nat × List Bytes) × List FileWrite :=
  match recs.lookup ws with
  | none => (recs, [])
  | some audio_chunks =>
    if audio_chunks = [] then (dictErase recs ws, [])
    else if audio_chunks.flatten.length = 0 then (dictErase recs ws, [])
    else
      (dictErase recs ws,
       [{ timestamp := ts
          nchannels := 1
          sampwidth := 2
          framerate := SAMPLE_RATE
          contents := audio_chunks.flatten }])

/-! ### Derived notions and concrete instances used in the theorems -/

/-- The client message types the dispatch of handle_browser_websocket
recognizes. -/
def recognizedType (t : Option String) : Bool :=
  t == some "session_start" || t == some "input_audio_buffer.append" ||
  t == some "interrupt" || t == some "text_message" ||
  t == some "update_sensitivity"

/-- A client interrupt message. -/
def interruptMsg : ClientData :=
  { msg_type := some "interrupt", audio := none, text := none, threshold := none }

/-- A client update_sensitivity message that omits the threshold field. -/
def updateSensitivityNoThreshold : ClientData :=
  { msg_type := some "update_sensitivity", audio := none, text := none,
    threshold := none }

/-- A client message of a type the dispatch does not recognize. -/
def bogusMsg : ClientData :=
  { msg_type := some "bogus", audio := none, text := none, threshold := none }

/-- A call context whose sends succeed. -/
def wCtx : ClientCtx :=
  { enable_recordings := false, ws_id := 0, now := 0,
    b64decode := fun _ => [], send_ok := true,
    send_error_name := "", send_error_message := "" }

/-- A call context at a time far past the last emitted error, so that a
throttled diagnostic, were one attempted, would be emitted. -/
def wCtxLate : ClientCtx :=
  { enable_recordings := false, ws_id := 0, now := 100,
    b64decode := fun _ => [], send_ok := true,
    send_error_name := "", send_error_message := "" }

/-- A bridge state with a live upstream channel and no response in flight. -/
def wStIdle : BridgeState :=
  { openai_ws := some (), audio_recordings := [],
    resp := { current_response_id := none, is_responding := false },
    last_error_time := 0, error_count := 0 }

/-- A bridge state with a live upstream channel and a response in flight. -/
def wStResponding : BridgeState :=
  { openai_ws := some (), audio_recordings := [],
    resp := { current_response_id := some "r1", is_responding := true },
    last_error_time := 0, error_count := 0 }

/-- An Azure-mode credential configuration with the endpoint unset. -/
def azureMissingCreds : ProviderConfig :=
  { use_azure := true, azure_endpoint := none, azure_api_key := some "k",
    azure_deployment := some "d", openai_api_key := none }

/-- An OpenAI-mode credential configuration with the key set. -/
def openaiCfg : ProviderConfig :=
  { use_azure := false, azure_endpoint := none, azure_api_key := none,
    azure_deployment := none, openai_api_key := some "sk" }

/-! ### Theorems -/

/-- The Python clamp max(0, min(1, t)) agrees with the order-theoretic
clamp. -/
theorem pyClamp_eq_max_min (t : ℚ) : pyMax 0 (pyMin 1 t) = max 0 (min 1 t) := by
  simp only [pyMax, pyMin, max_def, min_def]
  rcases le_total (1 : ℚ) t with h | h <;> rcases le_total (0 : ℚ) t with h2 | h2 <;>
    split_ifs <;> first | rfl | linarith

/-- C3: processing an upstream response.created event carrying response id r,
followed by a response.done event, leaves current_response_id none and
is_responding false, and the two events emit to the client exactly the
messages thinking with status start and then response_done, in that order. -/
theorem response_lifecycle_roundtrip (st : ResponseState) (r : String) :
    ((process_openai_event
        (process_openai_event st (OpenAIEvent.response_created (some r))).1
        OpenAIEvent.response_done).1.current_response_id = none) ∧
    ((process_openai_event
        (process_openai_event st (OpenAIEvent.response_created (some r))).1
        OpenAIEvent.response_done).1.is_responding = false) ∧
    ((process_openai_event st (OpenAIEvent.response_created (some r))).2 ++
      (process_openai_event
        (process_openai_event st (OpenAIEvent.response_created (some r))).1
        OpenAIEvent.response_done).2 =
      [BrowserMsg.thinking "start", BrowserMsg.response_done]) :=
  ⟨rfl, rfl, rfl⟩

/-- C2: an upstream error event whose message contains the substring
no active response, compared case-insensitively, emits zero browser
messages; any other error event emits exactly one error message carrying
the provider message verbatim.  The response state is unchanged either
way. -/
theorem benign_error_suppression (st : ResponseState) (s : String) :
    (pyIn "no active response" (pyLower s) = true →
      process_openai_event st (OpenAIEvent.error_event (some s)) = (st, [])) ∧
    (pyIn "no active response" (pyLower s) = false →
      process_openai_event st (OpenAIEvent.error_event (some s)) =
        (st, [BrowserMsg.error_msg s])) := by
  constructor
  · intro h
    simp [process_openai_event, h]
  · intro h
    simp [process_openai_event, h]

/-- Witness for C2: the benign error is suppressed even in mixed letter
case, and a rate limit error is forwarded verbatim as one error message. -/
theorem benign_error_suppression_witness :
    process_openai_event { current_response_id := none, is_responding := false }
        (OpenAIEvent.error_event (some "No ACTIVE Response found")) =
      ({ current_response_id := none, is_responding := false }, []) ∧
    process_openai_event { current_response_id := none, is_responding := false }
        (OpenAIEvent.error_event (some "rate limit exceeded")) =
      ({ current_response_id := none, is_responding := false },
       [BrowserMsg.error_msg "rate limit exceeded"]) :=
  ⟨(benign_error_suppression _ _).1 (by decide),
   (benign_error_suppression _ _).2 (by decide)⟩

/-- C8: update_vad_threshold over a live upstream channel sends exactly one
turn-detection update whose threshold is max(0, min(1, t)); in particular a
requested threshold of 1.5 is sent as exactly 1 and a requested threshold
of -0.2 as exactly 0. -/
theorem sensitivity_clamp (t : ℚ) :
    update_vad_threshold (some ()) t =
      [UpstreamCmd.session_update
        { td_type := "server_vad"
          threshold := max 0 (min 1 t)
          prefix_padding_ms := TURN_DETECTION_PREFIX_PADDING_MS
          silence_duration_ms := TURN_DETECTION_SILENCE_DURATION_MS }] ∧
    update_vad_threshold (some ()) (1.5 : ℚ) =
      [UpstreamCmd.session_update
        { td_type := "server_vad"
          threshold := 1
          prefix_padding_ms := TURN_DETECTION_PREFIX_PADDING_MS
          silence_duration_ms := TURN_DETECTION_SILENCE_DURATION_MS }] ∧
    update_vad_threshold (some ()) (-0.2 : ℚ) =
      [UpstreamCmd.session_update
        { td_type := "server_vad"
          threshold := 0
          prefix_padding_ms := TURN_DETECTION_PREFIX_PADDING_MS
          silence_duration_ms := TURN_DETECTION_SILENCE_DURATION_MS }] := by
  refine ⟨?_, ?_, ?_⟩
  · simp [update_vad_threshold, pyClamp_eq_max_min]
  · have h : pyMax 0 (pyMin 1 (1.5 : ℚ)) = 1 := by
      rw [pyClamp_eq_max_min]; norm_num
    simp [update_vad_threshold, h]
  · have h : pyMax 0 (pyMin 1 (-0.2 : ℚ)) = 0 := by
      rw [pyClamp_eq_max_min]
      norm_num [max_def, min_def]
    simp [update_vad_threshold, h]

/-- C9: the narrow sensitivity update changes only the threshold: for every
requested threshold the update it sends carries the same turn-detection
type, pre-roll padding, and trailing-silence duration that configure_session
sends from the configured session settings. -/
theorem sensitivity_update_frame (t : ℚ) :
    ∃ td s,
      configure_session (some ()) = (true, [UpstreamCmd.session_update_full s]) ∧
      s.turn_detection = configured_turn_detection ∧
      update_vad_threshold (some ()) t = [UpstreamCmd.session_update td] ∧
      td.td_type = s.turn_detection.td_type ∧
      td.prefix_padding_ms = s.turn_detection.prefix_padding_ms ∧
      td.silence_duration_ms = s.turn_detection.silence_duration_ms :=
  ⟨_, _, rfl, rfl, rfl, rfl, rfl, rfl⟩

/-- C1: when a client connects while the active-connection set is non-empty,
the bridge closes the prior upstream channel (when one exists) and every
prior client channel and clears the set, all strictly before it begins
connecting upstream for the new client, and the resulting state holds
exactly the one new connection. -/
theorem supersession_closes_before_connect (st : ConnState) (c : Nat)
    (h : st.active_connections ≠ []) :
    acceptClient st c =
      ({ active_connections := [c], openai_ws := none },
       closeActions st ++ [BridgeAction.begin_connect_upstream]) ∧
    (∀ a ∈ closeActions st, a ≠ BridgeAction.begin_connect_upstream) ∧
    (st.openai_ws.isSome = true →
      BridgeAction.close_upstream ∈ closeActions st) ∧
    (∀ w ∈ st.active_connections,
      BridgeAction.close_client w ∈ closeActions st) := by
  refine ⟨by simp [acceptClient, h], ?_, ?_, ?_⟩
  · intro a ha
    rcases List.mem_append.1 ha with h1 | h1
    · cases hws : st.openai_ws <;> rw [hws] at h1 <;> simp_all
    · rcases List.mem_map.1 h1 with ⟨w, _, rfl⟩
      simp
  · intro hws
    rw [Option.isSome_iff_exists] at hws
    obtain ⟨u, hu⟩ := hws
    apply List.mem_append.2
    left
    rw [hu]
    simp
  · intro w hw
    apply List.mem_append.2
    right
    exact List.mem_map.2 ⟨w, hw, rfl⟩

/-- Witness for C1: with one active connection 7 and a live upstream
channel, the arrival of connection 9 closes the upstream channel and
connection 7 before the begin-connect action, and leaves 9 as the only
active connection. -/
theorem supersession_witness :
    acceptClient { active_connections := [7], openai_ws := some () } 9 =
      ({ active_connections := [9], openai_ws := none },
       closeActions { active_connections := [7], openai_ws := some () } ++
         [BridgeAction.begin_connect_upstream]) ∧
    BridgeAction.close_upstream ∈
      closeActions { active_connections := [7], openai_ws := some () } ∧
    BridgeAction.close_client 7 ∈
      closeActions { active_connections := [7], openai_ws := some () } :=
  ⟨(supersession_closes_before_connect
      { active_connections := [7], openai_ws := some () } 9 (by decide)).1,
   (supersession_closes_before_connect
      { active_connections := [7], openai_ws := some () } 9 (by decide)).2.2.1 rfl,
   (supersession_closes_before_connect
      { active_connections := [7], openai_ws := some () } 9 (by decide)).2.2.2 7
      (by decide)⟩

/-- The erase step of save_recording removes the entry: a later lookup of
the same key finds nothing. -/
theorem lookup_dictErase (recs : List (Nat × List Bytes)) (k : Nat) :
    (dictErase recs k).lookup k = none := by
  induction recs with
  | nil => rfl
  | cons p rest ih =>
    obtain ⟨a, b⟩ := p
    by_cases hp : a = k
    · simpa [dictErase, List.filter_cons, hp] using ih
    · have hk : (k == a) = false := beq_eq_false_iff_ne.2 fun h => hp h.symm
      simpa [dictErase, List.filter_cons, hp, List.lookup, hk] using ih

/-- C6 counterexample: a recording buffer that is non-empty (it holds one
frame) but whose frame is empty is flushed without writing any file, against
the claim that a non-empty buffer yields exactly one file: the source checks
the concatenated byte count (line 628), not the chunk count. -/
theorem flush_nonempty_buffer_writes_nothing :
    ([([] : Bytes)] : List Bytes) ≠ [] ∧
    save_recording [(0, [([] : Bytes)])] 0 5 = ([], []) :=
  ⟨by decide, rfl⟩

/-- C6 amended: flushing writes exactly one file when the buffer holds at
least one byte of audio and zero files otherwise; the buffer entry does not
survive a flush, and a second flush is a no-op that writes nothing and is
not an error. -/
theorem flush_idempotent (recs : List (Nat × List Bytes)) (ws ts ts2 : Nat) :
    (save_recording recs ws ts).2.length =
      (if ((recs.lookup ws).getD []).flatten.length = 0 then 0 else 1) ∧
    ((save_recording recs ws ts).1).lookup ws = none ∧
    save_recording (save_recording recs ws ts).1 ws ts2 =
      ((save_recording recs ws ts).1, []) := by
  have herase := lookup_dictErase recs ws
  cases hl : recs.lookup ws with
  | none =>
    have h1 : ∀ u, save_recording recs ws u = (recs, []) := by
      intro u
      simp only [save_recording, hl]
    refine ⟨?_, ?_, ?_⟩
    · rw [h1 ts]
      rfl
    · rw [h1 ts]
      exact hl
    · rw [h1 ts, h1 ts2]
  | some chunks =>
    have h1 : save_recording recs ws ts =
        (dictErase recs ws,
         if chunks.flatten.length = 0 then []
         else [{ timestamp := ts, nchannels := 1, sampwidth := 2,
                 framerate := SAMPLE_RATE, contents := chunks.flatten }]) := by
      simp only [save_recording, hl]
      by_cases hc : chunks = []
      · subst hc
        simp
      · rw [if_neg hc]
        by_cases hz : chunks.flatten.length = 0
        · rw [if_pos hz, if_pos hz]
        · rw [if_neg hz, if_neg hz]
    refine ⟨?_, ?_, ?_⟩
    · rw [h1]
      simp only [Option.getD_some]
      by_cases hz : chunks.flatten.length = 0
      · rw [if_pos hz, if_pos hz]
        rfl
      · rw [if_neg hz, if_neg hz]
        rfl
    · rw [h1]
      exact herase
    · rw [h1]
      simp only [save_recording, herase]

/-- C4 counterexample: with Azure mode selected and the endpoint unset,
connect_to_openai raises a ValueError past its boundary (source lines
87-91, before the try block), even though the underlying connection attempt
would have succeeded; so it does not return a success-or-typed-failure
result on every input. -/
theorem connect_raises_on_missing_azure_credentials :
    connect_to_openai azureMissingCreds ConnectAttempt.success
        ConnectAttempt.success =
      Except.error (PyExn.valueError
        "Azure OpenAI requires AZURE_OPENAI_ENDPOINT, AZURE_OPENAI_API_KEY, and AZURE_OPENAI_DEPLOYMENT environment variables") :=
  rfl

/-- C4 amended: when the credentials required by the selected provider mode
are present, and any TypeError raised by the primary handshake attempt
mentions the header parameter (the signature-mismatch case the code
tolerates), connect_to_openai returns a success-or-failure value and
propagates no exception, whatever the underlying connection outcomes,
including timeout, DNS, TLS, handshake, and auth-rejection failures. -/
theorem connect_returns_result (cfg : ProviderConfig)
    (primary fallback : ConnectAttempt)
    (hcred : cfg.use_azure = true →
      (pyTruthyOpt cfg.azure_endpoint && pyTruthyOpt cfg.azure_api_key &&
        pyTruthyOpt cfg.azure_deployment) = true)
    (hty : ∀ m, primary = ConnectAttempt.raises (PyExn.typeError m) →
      (pyIn "additional_headers" m || pyIn "extra_headers" m) = true) :
    ∃ b, connect_to_openai cfg primary fallback = Except.ok b := by
  have hcond : (cfg.use_azure &&
      !(pyTruthyOpt cfg.azure_endpoint && pyTruthyOpt cfg.azure_api_key &&
        pyTruthyOpt cfg.azure_deployment)) = false := by
    cases hcfg : cfg.use_azure
    · simp
    · simp [hcred hcfg]
  unfold connect_to_openai
  rw [hcond]
  simp only [Bool.false_eq_true, if_false]
  cases primary with
  | success => exact ⟨true, rfl⟩
  | timeout => exact ⟨false, rfl⟩
  | raises e =>
    cases e with
    | valueError m => exact ⟨false, rfl⟩
    | timeoutError => exact ⟨false, rfl⟩
    | otherExn n m => exact ⟨false, rfl⟩
    | typeError m =>
      have hm := hty m rfl
      cases fallback with
      | success =>
        refine ⟨true, ?_⟩
        show (if (pyIn "additional_headers" m || pyIn "extra_headers" m) = true
            then Except.ok true else Except.error (PyExn.typeError m)) =
          Except.ok true
        rw [hm]
        simp
      | timeout =>
        refine ⟨false, ?_⟩
        show (if (pyIn "additional_headers" m || pyIn "extra_headers" m) = true
            then Except.ok false else Except.error (PyExn.typeError m)) =
          Except.ok false
        rw [hm]
        simp
      | raises e2 =>
        refine ⟨false, ?_⟩
        show (if (pyIn "additional_headers" m || pyIn "extra_headers" m) = true
            then Except.ok false else Except.error (PyExn.typeError m)) =
          Except.ok false
        rw [hm]
        simp

/-- Witness for C4 amended: an OpenAI-mode configuration whose primary
attempt fails with a DNS error yields a returned failure, not an
exception. -/
theorem connect_returns_result_witness :
    ∃ b, connect_to_openai openaiCfg
        (ConnectAttempt.raises (PyExn.otherExn "OSError" "dns lookup failed"))
        ConnectAttempt.success = Except.ok b :=
  connect_returns_result openaiCfg
    (ConnectAttempt.raises (PyExn.otherExn "OSError" "dns lookup failed"))
    ConnectAttempt.success (fun h => nomatch h) (fun _ hm => nomatch hm)

/-- C7: a client interrupt message sends no upstream command when no
response is in flight (is_responding false) or no usable response id is
recorded (the id is absent, or is the empty string, which the code treats
as not recorded); when a response is in flight with a non-empty recorded id
and the upstream channel exists, it sends exactly one response.cancel
command.  The state is unchanged in both cases. -/
theorem interrupt_cancel_law (ctx : ClientCtx) (st : BridgeState) :
    (st.resp.is_responding = false ∨ st.resp.current_response_id = none ∨
        st.resp.current_response_id = some "" →
      processClientMessage ctx st (some interruptMsg) = (st, [], [])) ∧
    (st.resp.is_responding = true →
      ∀ r, st.resp.current_response_id = some r → r ≠ "" →
      st.openai_ws = some () → ctx.send_ok = true →
      processClientMessage ctx st (some interruptMsg) =
        (st, [UpstreamCmd.response_cancel], [])) := by
  constructor
  · intro h
    have hcond : (st.resp.is_responding && pyTruthyOpt st.resp.current_response_id &&
        st.openai_ws.isSome) = false := by
      rcases h with h | h | h <;> simp [h, pyTruthyOpt]
    simp [processClientMessage, dispatch, interruptMsg, hcond]
  · intro hresp r hid hr hws hsend
    have hcond : (st.resp.is_responding && pyTruthyOpt st.resp.current_response_id &&
        st.openai_ws.isSome) = true := by
      simp [hresp, hid, pyTruthyOpt, hws, hr]
    simp [processClientMessage, dispatch, interruptMsg, hcond, hsend]

/-- Witness for C7: with no response in flight the interrupt is a no-op;
with a response in flight and id r1 recorded it sends one
response.cancel. -/
theorem interrupt_cancel_law_witness :
    processClientMessage wCtx wStIdle (some interruptMsg) = (wStIdle, [], []) ∧
    processClientMessage wCtx wStResponding (some interruptMsg) =
      (wStResponding, [UpstreamCmd.response_cancel], []) :=
  ⟨(interrupt_cancel_law wCtx wStIdle).1 (Or.inl rfl),
   (interrupt_cancel_law wCtx wStResponding).2 rfl "r1" rfl (by decide) rfl rfl⟩

/-- C10: a client update_sensitivity message that omits the threshold field
is not dropped: with a live upstream channel (and a send that does not
fail), the bridge invokes the sensitivity update with the default 0.7 and
one turn-detection update with threshold 7/10 (= 0.7) is sent upstream. -/
theorem default_sensitivity_update (ctx : ClientCtx) (st : BridgeState)
    (hws : st.openai_ws = some ()) (hsend : ctx.send_ok = true) :
    processClientMessage ctx st (some updateSensitivityNoThreshold) =
      (st,
       [UpstreamCmd.session_update
         { td_type := "server_vad"
           threshold := mkRat 7 10
           prefix_padding_ms := TURN_DETECTION_PREFIX_PADDING_MS
           silence_duration_ms := TURN_DETECTION_SILENCE_DURATION_MS }], []) ∧
    (mkRat 7 10 : ℚ) = (0.7 : ℚ) := by
  constructor
  · have hclamp : pyMax 0 (pyMin 1 (mkRat 7 10)) = mkRat 7 10 := by rfl
    simp [processClientMessage, dispatch, updateSensitivityNoThreshold, hws,
      hsend, update_vad_threshold, hclamp]
  · norm_num [Rat.mkRat_eq_div]

/-- Witness for C10: at the idle state with a live channel, the
threshold-less update_sensitivity message yields the 0.7 update. -/
theorem default_sensitivity_update_witness :
    processClientMessage wCtx wStIdle (some updateSensitivityNoThreshold) =
      (wStIdle,
       [UpstreamCmd.session_update
         { td_type := "server_vad"
           threshold := mkRat 7 10
           prefix_padding_ms := TURN_DETECTION_PREFIX_PADDING_MS
           silence_duration_ms := TURN_DETECTION_SILENCE_DURATION_MS }], []) :=
  (default_sensitivity_update wCtx wStIdle rfl rfl).1

/-- A message whose type is not one of the five recognized ones falls
through the whole if/elif chain: no state change, no upstream command, no
diagnostic. -/
theorem dispatch_unrecognized (ctx : ClientCtx) (st : BridgeState)
    (d : ClientData) (h : recognizedType d.msg_type = false) :
    processClientMessage ctx st (some d) = (st, [], []) := by
  have h5 := h
  simp only [recognizedType, Bool.or_eq_false_iff, beq_eq_false_iff_ne,
    ne_eq] at h5
  obtain ⟨⟨⟨⟨h1, h2⟩, h3⟩, h4⟩, h6⟩ := h5
  simp [processClientMessage, dispatch, h1, h2, h3, h4, h6]

/-- C5 counterexample: an unrecognized-type client message, at a state
where the error-throttle window has long elapsed (so a throttled diagnostic
would fire if one were attempted), is dropped with NO diagnostic at all:
the if/elif chain of lines 316-383 has no else branch and prints nothing,
against the claim that the drop comes with a throttled diagnostic. -/
theorem unrecognized_message_silent :
    processClientMessage wCtxLate wStIdle (some bogusMsg) =
      (wStIdle, [], []) := rfl

/-- C5 amended: over any finite run of client messages each of which is
either malformed (non-JSON) or of unrecognized type, the session loop
processes every message without an escaping exception, ends in the same
state, sends no upstream command, and prints exactly one unthrottled
invalid-JSON diagnostic per malformed message and nothing for unrecognized
ones; the session is never terminated by such messages. -/
theorem unrecognized_messages_dropped (ctx : ClientCtx) (st : BridgeState)
    (msgs : List (Option ClientData))
    (h : ∀ m ∈ msgs, ∀ d, m = some d → recognizedType d.msg_type = false) :
    (runClientLoop ctx st msgs).1 = st ∧
    (runClientLoop ctx st msgs).2.1 = [] ∧
    (runClientLoop ctx st msgs).2.2 =
      msgs.filterMap (fun m =>
        match m with
        | none => some Diag.invalid_json
        | some _ => none) := by
  induction msgs with
  | nil => exact ⟨rfl, rfl, rfl⟩
  | cons m rest ih =>
    have hrest := ih (fun m2 hm2 d hd => h m2 (List.mem_cons_of_mem m hm2) d hd)
    cases m with
    | none =>
      have hstep : processClientMessage ctx st none = (st, [], [Diag.invalid_json]) := rfl
      refine ⟨?_, ?_, ?_⟩
      · simp [runClientLoop, hstep, hrest.1]
      · simp [runClientLoop, hstep, hrest.2.1]
      · simp [runClientLoop, hstep, hrest.2.2]
    | some d =>
      have hd := h (some d) (List.mem_cons_self _ _) d rfl
      have hstep := dispatch_unrecognized ctx st d hd
      refine ⟨?_, ?_, ?_⟩
      · simp [runClientLoop, hstep, hrest.1]
      · simp [runClientLoop, hstep, hrest.2.1]
      · simp [runClientLoop, hstep, hrest.2.2]

/-- Witness for C5 amended: a bogus-type message followed by a malformed
message leaves the state unchanged, sends nothing upstream, and prints one
invalid-JSON diagnostic. -/
theorem unrecognized_messages_dropped_witness :
    (runClientLoop wCtx wStIdle [some bogusMsg, none]).1 = wStIdle ∧
    (runClientLoop wCtx wStIdle [some bogusMsg, none]).2.1 = [] ∧
    (runClientLoop wCtx wStIdle [some bogusMsg, none]).2.2 =
      [Diag.invalid_json] := by
  have h := unrecognized_messages_dropped wCtx wStIdle [some bogusMsg, none]
    (by
      intro m hm d hd
      rcases List.mem_cons.1 hm with rfl | hm2
      · cases hd
        rfl
      · rcases List.mem_cons.1 hm2 with rfl | hm3
        · cases hd
        · cases hm3)
  exact ⟨h.1, h.2.1, by rw [h.2.2]; rfl⟩

end STS
